import Mathlib

/-!
Verification of `renderdoc/driver/d3d12/d3d12_debug.cpp` (D3D12DebugManager).

The file shallowly embeds the parts of the source that the verified
properties are about: the content-addressed shader cache (`GetShaderBlob`,
constructor/destructor persistence logic), the glyph ring-buffer reservation
in `RenderTextInternal`, the output-window lifecycle operations
(`MakeOutputWindow`, `DestroyOutputWindow`, `CheckResizeOutputWindow`,
`GetOutputWindowDimensions`, `ClearOutputWindowColour`,
`ClearOutputWindowDepth`, `BindOutputWindow`, `FlipOutputWindow`,
`AllocRTV`) and the resource-state barrier logic of `RenderTexture`.

External collaborators (device, compiler, windowing) are modelled as pure
parameters or always-successful state updates, following the spec's
treatment of them as opaque collaborators.  Machine integers are `Nat`/`Int`
with explicit `% 2^32` where truncation matters.  32-bit floats are
modelled exactly by rationals extended with NaN and signed infinities
(`F32` below); rounding is abstracted but special-value propagation and the
overflow-to-infinity threshold are modelled.
-/

namespace D3D12Debug

/-! ## Generic association-list helpers (std::map keyed by integer ids) -/

/-- Lookup in an association list keyed by `Nat` (models `std::map::find`). -/
def mapFind? {α : Type} (k : Nat) : List (Nat × α) → Option α
  | [] => none
  | (k', v) :: t => if k' = k then some v else mapFind? k t

/-- Insert-or-overwrite (models `m[k] = v` on `std::map`), keeping the
position of an existing key. -/
def mapInsert {α : Type} (k : Nat) (v : α) : List (Nat × α) → List (Nat × α)
  | [] => [(k, v)]
  | (k', v') :: t => if k' = k then (k, v) :: t else (k', v') :: mapInsert k v t

/-- Remove the entry for `k` (models `m.erase(it)` after a successful find). -/
def mapErase {α : Type} (k : Nat) : List (Nat × α) → List (Nat × α)
  | [] => []
  | (k', v') :: t => if k' = k then t else (k', v') :: mapErase k t

theorem mapFind?_mapInsert {α : Type} (k k' : Nat) (v : α) (l : List (Nat × α)) :
    mapFind? k (mapInsert k' v l) = if k' = k then some v else mapFind? k l := by
  induction l with
  | nil => by_cases h : k' = k <;> simp [mapInsert, mapFind?, h]
  | cons p t ih =>
    obtain ⟨pk, pv⟩ := p
    by_cases h1 : pk = k'
    · subst h1
      by_cases h2 : pk = k <;> simp [mapInsert, mapFind?, h2]
    · by_cases h2 : k' = k
      · subst h2
        simp [mapInsert, mapFind?, h1, ih]
      · simp [mapInsert, mapFind?, h1, h2, ih]

theorem mapFind?_mapInsert_self {α : Type} (k : Nat) (v : α) (l : List (Nat × α)) :
    mapFind? k (mapInsert k v l) = some v := by
  simp [mapFind?_mapInsert]

theorem mapFind?_mapErase_some {α : Type} (k k' : Nat) (v : α) (l : List (Nat × α)) :
    mapFind? k (mapErase k' l) = some v → ∃ w : α, mapFind? k l = some w := by
  induction l with
  | nil => simp [mapErase, mapFind?]
  | cons p t ih =>
    obtain ⟨pk, pv⟩ := p
    intro hf
    by_cases h1 : pk = k'
    · by_cases h2 : pk = k
      · exact ⟨pv, by simp [mapFind?, h2]⟩
      · exact ⟨v, by simp [mapFind?, h2]; simpa [mapErase, h1] using hf⟩
    · by_cases h2 : pk = k
      · exact ⟨pv, by simp [mapFind?, h2]⟩
      · rcases ih (by simpa [mapErase, mapFind?, h1, h2] using hf) with ⟨w, hw⟩
        exact ⟨w, by simpa [mapFind?, h2] using hw⟩

/-! ## Ring-buffered glyph reservation (`RenderTextInternal`, lines 1314-1324)

The constants `FONT_BUFFER_CHARS` and `FONT_MAX_CHARS` are defined in
`d3d12_debug.h`, which is not under `src/`. -/

/-- Modelled from the spec: the fixed total capacity of the glyph character
buffer, in character slots; the constant lives in the missing header
`d3d12_debug.h` (the buffer is created as
`MakeCBuffer(FONT_BUFFER_CHARS * sizeof(uint32_t) * 4)`). -/
def FONT_BUFFER_CHARS : Nat := 1024

/-- Modelled from the spec: the fixed per-draw character limit enforced by
`RDCASSERT(strlen(text) < FONT_MAX_CHARS)`; the constant lives in the
missing header `d3d12_debug.h`. -/
def FONT_MAX_CHARS : Nat := 256

/-- Modelled from the spec: each buffer element is a `Vec4f`, 16 bytes
(`sizeof(Vec4f)` from the missing `maths/vec.h`). -/
def sizeofVec4f : Nat := 16

/-- Modelled from the spec: `AlignUp(x, a)` rounds `x` up to a multiple of
the (power-of-two) alignment `a`; the template lives in a missing common
header.  For powers of two, `(x + a-1) & ~(a-1)` equals `(x + a-1) / a * a`. -/
def AlignUp (x a : Nat) : Nat := (x + a - 1) / a * a

/-- The glyph-slot reservation step of `RenderTextInternal`
(d3d12_debug.cpp lines 1314-1324): given the current write cursor
`m_Font.CharOffset` and the character count of the line, returns the
reserved offset `charOffset` and the new cursor.  The cursor wraps to 0
when `m_Font.CharOffset + chars >= FONT_BUFFER_CHARS`, is advanced past the
reserved region and aligned up to `256 / sizeof(Vec4f)` elements. -/
def reserveCharOffset (cursor chars : Nat) : Nat × Nat :=
  let charOffset := if FONT_BUFFER_CHARS ≤ cursor + chars then 0 else cursor
  (charOffset, AlignUp (charOffset + chars) (256 / sizeofVec4f))

/-- Offsets returned by a sequence of reservations, threading the cursor. -/
def runReserves : Nat → List Nat → List Nat
  | _, [] => []
  | cursor, n :: ns =>
    (reserveCharOffset cursor n).1 :: runReserves (reserveCharOffset cursor n).2 ns

theorem AlignUp_le_self (x : Nat) : x ≤ AlignUp x 16 := by
  unfold AlignUp
  have h := Nat.div_add_mod (x + 16 - 1) 16
  have h2 : (x + 16 - 1) % 16 < 16 := Nat.mod_lt _ (by omega)
  omega

theorem AlignUp_lt_add (x : Nat) : AlignUp x 16 < x + 16 := by
  unfold AlignUp
  have h := Nat.div_add_mod (x + 16 - 1) 16
  have h2 : (x + 16 - 1) % 16 < 16 := Nat.mod_lt _ (by omega)
  omega

theorem AlignUp_le_cap (x : Nat) (h : x ≤ 1024) : AlignUp x 16 ≤ 1024 := by
  unfold AlignUp
  have h1 := Nat.div_add_mod (x + 16 - 1) 16
  have h2 : (x + 16 - 1) % 16 < 16 := Nat.mod_lt _ (by omega)
  omega

/-- If the counts still to be reserved sum past the capacity, some
reservation wraps and returns offset 0. -/
theorem runReserves_wraps (counts : List Nat) :
    ∀ cur : Nat, cur ≤ FONT_BUFFER_CHARS →
    FONT_BUFFER_CHARS < cur + counts.sum → 0 ∈ runReserves cur counts := by
  induction counts with
  | nil => intro cur hle hsum; simp [FONT_BUFFER_CHARS] at hle hsum; omega
  | cons c rest ih =>
    intro cur hle hsum
    by_cases hw : FONT_BUFFER_CHARS ≤ cur + c
    · simp [runReserves, reserveCharOffset, hw]
    · have hlt : cur + c < FONT_BUFFER_CHARS := by omega
      refine List.mem_cons.2 (Or.inr ?_)
      have hcur' : AlignUp (cur + c) (256 / sizeofVec4f) ≤ FONT_BUFFER_CHARS := by
        simpa [sizeofVec4f, FONT_BUFFER_CHARS] using
          AlignUp_le_cap (cur + c) (by simpa [FONT_BUFFER_CHARS] using hlt.le)
      have hge : cur + c ≤ AlignUp (cur + c) (256 / sizeofVec4f) := by
        simpa [sizeofVec4f] using AlignUp_le_self (cur + c)
      have := ih (AlignUp (cur + c) (256 / sizeofVec4f)) hcur'
        (by simp [List.sum_cons] at hsum; omega)
      simpa [runReserves, reserveCharOffset, hw] using this

/-- C2: a single-line reservation in `RenderTextInternal` wraps the cursor to
0 when the write cursor plus the character count would exceed
`FONT_BUFFER_CHARS`; no reservation (of a line respecting the
`FONT_MAX_CHARS` assertion) returns an offset with `offset + n` exceeding
the capacity; the cursor ends past the reserved region, rounded up to the
256-byte granularity expressed in buffer elements; and reservations whose
counts sum to more than the capacity produce a later offset smaller than an
earlier one. -/
theorem RenderTextInternal_reservation :
    (∀ cursor n, FONT_BUFFER_CHARS < cursor + n → (reserveCharOffset cursor n).1 = 0)
    ∧ (∀ cursor n, n < FONT_MAX_CHARS →
        (reserveCharOffset cursor n).1 + n ≤ FONT_BUFFER_CHARS)
    ∧ (∀ cursor n,
        (reserveCharOffset cursor n).2 =
          AlignUp ((reserveCharOffset cursor n).1 + n) (256 / sizeofVec4f)
        ∧ (reserveCharOffset cursor n).1 + n ≤ (reserveCharOffset cursor n).2)
    ∧ (∀ counts : List Nat, (∀ c ∈ counts, 0 < c ∧ c < FONT_MAX_CHARS) →
        FONT_BUFFER_CHARS < counts.sum →
        ∃ i j a b, i < j ∧ (runReserves 0 counts).get? i = some a ∧
          (runReserves 0 counts).get? j = some b ∧ b < a) := by
  refine ⟨?_, ?_, ?_, ?_⟩
  · intro cursor n h
    simp [reserveCharOffset, if_pos h.le]
  · intro cursor n h
    by_cases hw : FONT_BUFFER_CHARS ≤ cursor + n
    · simp only [reserveCharOffset, if_pos hw]
      simp [FONT_BUFFER_CHARS, FONT_MAX_CHARS] at h ⊢
      omega
    · simp only [reserveCharOffset, if_neg hw]
      omega
  · intro cursor n
    refine ⟨rfl, ?_⟩
    simpa [sizeofVec4f] using AlignUp_le_self ((reserveCharOffset cursor n).1 + n)
  · intro counts hmem hsum
    match counts with
    | [] => simp [FONT_BUFFER_CHARS] at hsum
    | [c1] =>
      have h1 := hmem c1 (by simp)
      simp [FONT_BUFFER_CHARS, FONT_MAX_CHARS] at h1 hsum
      omega
    | c1 :: c2 :: rest =>
      have h1 := hmem c1 (by simp)
      have h2 := hmem c2 (by simp)
      simp [FONT_MAX_CHARS] at h1 h2
      simp [FONT_BUFFER_CHARS, List.sum_cons] at hsum
      have e1 : reserveCharOffset 0 c1 = (0, AlignUp c1 16) := by
        simp [reserveCharOffset, sizeofVec4f]
      have hlt2 : ¬ (FONT_BUFFER_CHARS ≤ AlignUp c1 16 + c2) := by
        have := AlignUp_lt_add c1
        simp [FONT_BUFFER_CHARS]
        omega
      have e2 : reserveCharOffset (AlignUp c1 16) c2 =
          (AlignUp c1 16, AlignUp (AlignUp c1 16 + c2) 16) := by
        simp [reserveCharOffset, sizeofVec4f, if_neg hlt2]
      have hlist : runReserves 0 (c1 :: c2 :: rest) =
          0 :: AlignUp c1 16 :: runReserves (AlignUp (AlignUp c1 16 + c2) 16) rest := by
        simp [runReserves, e1, e2]
      have h3le : AlignUp (AlignUp c1 16 + c2) 16 ≤ 1024 := by
        refine AlignUp_le_cap _ ?_
        have := AlignUp_lt_add c1
        omega
      have h3ge : c1 + c2 ≤ AlignUp (AlignUp c1 16 + c2) 16 := by
        have ha := AlignUp_le_self c1
        have hb := AlignUp_le_self (AlignUp c1 16 + c2)
        omega
      have hz : 0 ∈ runReserves (AlignUp (AlignUp c1 16 + c2) 16) rest := by
        refine runReserves_wraps rest _ ?_ ?_
        · simpa [FONT_BUFFER_CHARS] using h3le
        · simp [FONT_BUFFER_CHARS]
          omega
      rcases List.mem_iff_get?.1 hz with ⟨j, hj⟩
      refine ⟨1, j + 2, AlignUp c1 16, 0, by omega, ?_, ?_, ?_⟩
      · rw [hlist]; rfl
      · rw [hlist]; exact hj
      · have := AlignUp_le_self c1
        omega

/-- Witness for C2 at concrete inputs: cursor 900 with 200 characters wraps;
five successive 250-character lines force a wrapped offset below an earlier
one. -/
theorem RenderTextInternal_reservation_witness :
    (reserveCharOffset 900 200).1 = 0
    ∧ (reserveCharOffset 512 100).1 + 100 ≤ FONT_BUFFER_CHARS
    ∧ (∃ i j a b, i < j ∧ (runReserves 0 [250, 250, 250, 250, 250]).get? i = some a ∧
        (runReserves 0 [250, 250, 250, 250, 250]).get? j = some b ∧ b < a) :=
  ⟨RenderTextInternal_reservation.1 900 200 (by decide),
   RenderTextInternal_reservation.2.1 512 100 (by decide),
   RenderTextInternal_reservation.2.2.2 [250, 250, 250, 250, 250]
     (by decide) (by decide)⟩

/-! ## Shader cache (`GetShaderBlob`, constructor lines 189-195,
destructor lines 606-617) -/

/-- A compiled bytecode blob (`ID3DBlob`) together with the reference count
of the underlying COM object. -/
structure Blob where
  data : List Nat
  refs : Nat
deriving DecidableEq

/-- The shader-cache related fields of `D3D12DebugManager`: `m_ShaderCache`
(hash to blob pointer; a null pointer is `none`), `m_ShaderCacheDirty` and
`m_CacheShaders`. -/
structure ShaderCacheState where
  cache : List (Nat × Option Blob)
  dirty : Bool
  cacheShaders : Bool
deriving DecidableEq

/-- Result of the external `D3DCompile` collaborator: bytecode plus an
optional warning blob on success, or an optional error blob on failure. -/
inductive CompileResult where
  | success (bytecode : List Nat) (warnings : Option String)
  | failure (diagnostics : Option String)

/-- Modelled from the spec: `strhash` from `serialise/string_utils.h` is not
under `src/`; modelled as a deterministic 32-bit string hash with a seed
argument. -/
def strhash (s : String) (seed : Nat) : Nat :=
  s.data.foldl (fun h c => (h * 33 + c.toNat) % 2 ^ 32) seed

/-- Modelled from the spec: the default seed of `strhash`. -/
def strhashSeed : Nat := 5381

/-- The combined hash of `GetShaderBlob` (lines 645-648): chained string
hashes of source, entry point and profile, xor-ed with the compile flags. -/
def shaderHash (source entry profile : String) (compileFlags : Nat) : Nat :=
  Nat.xor (strhash profile (strhash entry (strhash source strhashSeed))) compileFlags

/-- D3DCOMPILE_NO_PRESHADER, the flag stripped before invoking the external
compiler (line 676): `compileFlags & ~D3DCOMPILE_NO_PRESHADER` on uint32. -/
def stripNoPreshader (compileFlags : Nat) : Nat :=
  Nat.land compileFlags (2 ^ 32 - 1 - 2 ^ 8)

/-- Bump the reference count of the blob stored under `k`
(the `AddRef` on a cache hit). -/
def cacheAddRef (k : Nat) : List (Nat × Option Blob) → List (Nat × Option Blob)
  | [] => []
  | (k', v) :: t =>
    if k' = k then (k', v.map (fun b => { b with refs := b.refs + 1 })) :: t
    else (k', v) :: cacheAddRef k t

/-- Result of one `GetShaderBlob` call.  `ret = none` models a crash (null
pointer dereference) before the function could return; otherwise `ret`
carries the returned error string and the value written to `*srcblob`
(`none` when the out-parameter was left null).  `compiled` records whether
the external compiler was invoked. -/
structure GetShaderBlobResult where
  ret : Option (String × Option (List Nat))
  state : ShaderCacheState
  compiled : Bool
deriving DecidableEq

/-- `D3D12DebugManager::GetShaderBlob` (lines 641-713).  The external
compiler is a pure collaborator `compileFn`.  On a cache hit the stored blob
is AddRef-ed and returned with no diagnostics.  On a miss the compiler runs
on the stripped flags; a failure with a diagnostic blob returns the full
diagnostic text (only the log copy is truncated) without touching the
cache; a failure without a diagnostic blob falls through to the caching
block, which stores the null blob and crashes calling `AddRef` on it before
`m_ShaderCacheDirty` is set; a success is cached (when `m_CacheShaders`)
with the cache marked dirty, and returned together with any warning text. -/
def GetShaderBlob (compileFn : String → String → String → Nat → CompileResult)
    (source entry profile : String) (compileFlags : Nat)
    (s : ShaderCacheState) : GetShaderBlobResult :=
  let hash := shaderHash source entry profile compileFlags
  match mapFind? hash s.cache with
  | some (some b) =>
    { ret := some ("", some b.data), state := { s with cache := cacheAddRef hash s.cache },
      compiled := false }
  | some none =>
    { ret := none, state := s, compiled := false }
  | none =>
    match compileFn source entry profile (stripNoPreshader compileFlags) with
    | .failure (some diag) =>
      { ret := some (diag, none), state := s, compiled := true }
    | .failure none =>
      if s.cacheShaders then
        { ret := none, state := { s with cache := mapInsert hash none s.cache },
          compiled := true }
      else
        { ret := some ("", none), state := s, compiled := true }
    | .success bytecode warnings =>
      if s.cacheShaders then
        { ret := some (warnings.getD "", some bytecode),
          state :=
            { s with
              cache := mapInsert hash (some ⟨bytecode, 2⟩) s.cache
              dirty := true },
          compiled := true }
      else
        { ret := some (warnings.getD "", some bytecode), state := s, compiled := true }

theorem mapFind?_cacheAddRef (k k' : Nat) (l : List (Nat × Option Blob)) :
    mapFind? k (cacheAddRef k' l) =
      if k' = k then (mapFind? k l).map (Option.map (fun b => { b with refs := b.refs + 1 }))
      else mapFind? k l := by
  induction l with
  | nil => by_cases h : k' = k <;> simp [cacheAddRef, mapFind?, h]
  | cons p t ih =>
    obtain ⟨pk, pv⟩ := p
    by_cases h1 : pk = k'
    · subst h1
      by_cases h2 : pk = k <;> simp [cacheAddRef, mapFind?, h2, ih]
    · by_cases h2 : pk = k
      · subst h2
        have h3 : ¬ k' = pk := fun h => h1 h.symm
        simp [cacheAddRef, mapFind?, h1, h3]
      · simp [cacheAddRef, mapFind?, h1, h2, ih]

theorem GetShaderBlob_hit (compileFn : String → String → String → Nat → CompileResult)
    (source entry profile : String) (compileFlags : Nat)
    (s : ShaderCacheState) (blob : Blob)
    (hfind : mapFind? (shaderHash source entry profile compileFlags) s.cache =
      some (some blob)) :
    GetShaderBlob compileFn source entry profile compileFlags s =
      { ret := some ("", some blob.data),
        state := { s with
          cache := cacheAddRef (shaderHash source entry profile compileFlags) s.cache },
        compiled := false } := by
  simp [GetShaderBlob, hfind]

/-- C3: a second `GetShaderBlob` call with identical source, entry point,
profile and compile flags, made while `m_CacheShaders` is enabled and after
a first call that returned bytecode, finds the combined hash in the cache,
returns the stored blob with its reference count incremented, performs no
external compilation, returns an empty diagnostics string, and the returned
bytecode is byte-equal to the first call's result. -/
theorem GetShaderBlob_second_call_hits
    (compileFn : String → String → String → Nat → CompileResult)
    (source entry profile : String) (compileFlags : Nat)
    (s : ShaderCacheState) (hcs : s.cacheShaders = true)
    (e : String) (b : List Nat)
    (h1 : (GetShaderBlob compileFn source entry profile compileFlags s).ret =
      some (e, some b)) :
    ∃ rc : Nat,
      mapFind? (shaderHash source entry profile compileFlags)
          (GetShaderBlob compileFn source entry profile compileFlags s).state.cache =
        some (some ⟨b, rc⟩)
      ∧ (GetShaderBlob compileFn source entry profile compileFlags
          (GetShaderBlob compileFn source entry profile compileFlags s).state).ret =
        some ("", some b)
      ∧ (GetShaderBlob compileFn source entry profile compileFlags
          (GetShaderBlob compileFn source entry profile compileFlags s).state).compiled =
        false
      ∧ mapFind? (shaderHash source entry profile compileFlags)
          (GetShaderBlob compileFn source entry profile compileFlags
            (GetShaderBlob compileFn source entry profile compileFlags s).state).state.cache =
        some (some ⟨b, rc + 1⟩) := by
  cases hfind : mapFind? (shaderHash source entry profile compileFlags) s.cache with
  | some ob =>
    cases ob with
    | some blob =>
      have hb : blob.data = b := by
        have := h1
        simp [GetShaderBlob, hfind] at this
        exact this.2
      have hs1 : mapFind? (shaderHash source entry profile compileFlags)
          (GetShaderBlob compileFn source entry profile compileFlags s).state.cache =
          some (some ⟨b, blob.refs + 1⟩) := by
        simp [GetShaderBlob, hfind, mapFind?_cacheAddRef, ← hb]
      have h2 := GetShaderBlob_hit compileFn source entry profile compileFlags
        (GetShaderBlob compileFn source entry profile compileFlags s).state
        ⟨b, blob.refs + 1⟩ hs1
      refine ⟨blob.refs + 1, hs1, ?_, ?_, ?_⟩
      · rw [h2]
      · rw [h2]
      · rw [h2]
        simp [mapFind?_cacheAddRef, hs1]
    | none =>
      simp [GetShaderBlob, hfind] at h1
  | none =>
    cases hc : compileFn source entry profile (stripNoPreshader compileFlags) with
    | failure diag =>
      cases diag with
      | some d => simp [GetShaderBlob, hfind, hc] at h1
      | none => simp [GetShaderBlob, hfind, hc, hcs] at h1
    | success bytecode warnings =>
      have hb : bytecode = b := by
        have := h1
        simp [GetShaderBlob, hfind, hc, hcs] at this
        exact this.2
      subst hb
      have hs1 : mapFind? (shaderHash source entry profile compileFlags)
          (GetShaderBlob compileFn source entry profile compileFlags s).state.cache =
          some (some ⟨bytecode, 2⟩) := by
        simp [GetShaderBlob, hfind, hc, hcs, mapFind?_mapInsert_self]
      have h2 := GetShaderBlob_hit compileFn source entry profile compileFlags
        (GetShaderBlob compileFn source entry profile compileFlags s).state
        ⟨bytecode, 2⟩ hs1
      refine ⟨2, hs1, ?_, ?_, ?_⟩
      · rw [h2]
      · rw [h2]
      · rw [h2]
        simp [mapFind?_cacheAddRef, hs1]

/-- Witness for C3: a concrete compiler, empty cache with caching enabled;
the first call compiles and caches, the second call hits. -/
theorem GetShaderBlob_second_call_hits_witness :
    ((⟨[], false, true⟩ : ShaderCacheState).cacheShaders = true
      ∧ (GetShaderBlob (fun _ _ _ _ => CompileResult.success [1, 2, 3] none)
          "src" "main" "ps_5_0" 0 ⟨[], false, true⟩).ret = some ("", some [1, 2, 3]))
    ∧ ∃ rc : Nat,
      mapFind? (shaderHash "src" "main" "ps_5_0" 0)
          (GetShaderBlob (fun _ _ _ _ => CompileResult.success [1, 2, 3] none)
            "src" "main" "ps_5_0" 0 ⟨[], false, true⟩).state.cache =
        some (some ⟨[1, 2, 3], rc⟩)
      ∧ (GetShaderBlob (fun _ _ _ _ => CompileResult.success [1, 2, 3] none)
          "src" "main" "ps_5_0" 0
          (GetShaderBlob (fun _ _ _ _ => CompileResult.success [1, 2, 3] none)
            "src" "main" "ps_5_0" 0 ⟨[], false, true⟩).state).ret =
        some ("", some [1, 2, 3])
      ∧ (GetShaderBlob (fun _ _ _ _ => CompileResult.success [1, 2, 3] none)
          "src" "main" "ps_5_0" 0
          (GetShaderBlob (fun _ _ _ _ => CompileResult.success [1, 2, 3] none)
            "src" "main" "ps_5_0" 0 ⟨[], false, true⟩).state).compiled = false
      ∧ mapFind? (shaderHash "src" "main" "ps_5_0" 0)
          (GetShaderBlob (fun _ _ _ _ => CompileResult.success [1, 2, 3] none)
            "src" "main" "ps_5_0" 0
            (GetShaderBlob (fun _ _ _ _ => CompileResult.success [1, 2, 3] none)
              "src" "main" "ps_5_0" 0 ⟨[], false, true⟩).state).state.cache =
        some (some ⟨[1, 2, 3], rc + 1⟩) :=
  ⟨⟨rfl, by decide⟩,
    GetShaderBlob_second_call_hits (fun _ _ _ _ => CompileResult.success [1, 2, 3] none)
      "src" "main" "ps_5_0" 0 ⟨[], false, true⟩ rfl "" [1, 2, 3] (by decide)⟩

/-- C4 (code-bug exhibit): on a hash miss where the compiler fails without
producing a diagnostic blob while `m_CacheShaders` is enabled, lines
702-707 still run: the null `byteBlob` is inserted into `m_ShaderCache`
under the hash, and `byteBlob->AddRef()` dereferences the null pointer
(modelled as `ret = none`) before `m_ShaderCacheDirty` is set. -/
theorem GetShaderBlob_failure_without_diag_caches_null :
    (GetShaderBlob (fun _ _ _ _ => CompileResult.failure none)
        "src" "main" "ps_5_0" 0 ⟨[], false, true⟩).ret = none
    ∧ (GetShaderBlob (fun _ _ _ _ => CompileResult.failure none)
        "src" "main" "ps_5_0" 0 ⟨[], false, true⟩).state.cache =
      [(shaderHash "src" "main" "ps_5_0" 0, none)]
    ∧ (GetShaderBlob (fun _ _ _ _ => CompileResult.failure none)
        "src" "main" "ps_5_0" 0 ⟨[], false, true⟩).state.dirty = false := by
  decide

/-! ## Shader-cache persistence across a session (constructor lines 189-195,
destructor lines 606-617) -/

/-- The on-disk cache file: magic number, version tag, and (hash, bytecode)
records. -/
structure CacheFile where
  magic : Nat
  version : Nat
  entries : List (Nat × List Nat)
deriving DecidableEq

/-- Modelled from the spec: `LoadShaderCache` from `common/shader_cache.h`
is not under `src/`; per the spec it loads the persisted entries when the
magic number and version match and otherwise (mismatch or read failure,
modelled as `none`) yields an empty cache and failure.  Each loaded blob
starts with a single reference held by the cache. -/
def LoadShaderCache (file : Option CacheFile) (magic version : Nat) :
    Bool × List (Nat × Option Blob) :=
  match file with
  | none => (false, [])
  | some f =>
    if f.magic = magic ∧ f.version = version then
      (true, f.entries.map (fun p => (p.1, some ⟨p.2, 1⟩)))
    else (false, [])

/-- The shader-cache part of the `D3D12DebugManager` constructor (lines
189-195): load the cache file, set `m_ShaderCacheDirty` to the negation of
the load success, and enable `m_CacheShaders`. -/
def initShaderCacheState (file : Option CacheFile) (magic version : Nat) :
    ShaderCacheState :=
  { cache := (LoadShaderCache file magic version).2,
    dirty := !(LoadShaderCache file magic version).1,
    cacheShaders := true }

/-- One shader-compilation request (argument tuple of `GetShaderBlob`). -/
structure ShaderRequest where
  source : String
  entry : String
  profile : String
  flags : Nat
deriving DecidableEq

/-- A session: construct (loading the cache file), then serve a sequence of
`GetShaderBlob` calls. -/
def runSession (compileFn : String → String → String → Nat → CompileResult)
    (file : Option CacheFile) (magic version : Nat)
    (calls : List ShaderRequest) : ShaderCacheState :=
  calls.foldl
    (fun st c => (GetShaderBlob compileFn c.source c.entry c.profile c.flags st).state)
    (initShaderCacheState file magic version)

/-- The data of the entries still resident in the cache (hash and raw
bytes), as serialized by `SaveShaderCache`. -/
def entriesData (cache : List (Nat × Option Blob)) : List (Nat × List Nat) :=
  cache.filterMap (fun p => p.2.map (fun b => (p.1, b.data)))

/-- The shader-cache part of the destructor (lines 606-617): if
`m_ShaderCacheDirty`, serialize every resident entry to the cache file
(first component); otherwise write nothing and release every entry (second
component lists the released entries). -/
def shutdownShaderCache (s : ShaderCacheState) :
    Option (List (Nat × List Nat)) × List (Nat × List Nat) :=
  if s.dirty then (some (entriesData s.cache), []) else (none, entriesData s.cache)

theorem GetShaderBlob_dirty_mono
    (compileFn : String → String → String → Nat → CompileResult)
    (source entry profile : String) (compileFlags : Nat) (s : ShaderCacheState)
    (h : s.dirty = true) :
    (GetShaderBlob compileFn source entry profile compileFlags s).state.dirty = true := by
  unfold GetShaderBlob
  cases hfind : mapFind? (shaderHash source entry profile compileFlags) s.cache with
  | some ob => cases ob <;> simpa [hfind]
  | none =>
    cases hc : compileFn source entry profile (stripNoPreshader compileFlags) with
    | failure diag =>
      cases diag with
      | some d => simpa [hfind, hc]
      | none => by_cases hcs : s.cacheShaders = true <;> simp_all [hfind, hc]
    | success bytecode warnings =>
      by_cases hcs : s.cacheShaders = true <;> simp_all [hfind, hc]

theorem GetShaderBlob_hit_preserves
    (compileFn : String → String → String → Nat → CompileResult)
    (source entry profile : String) (compileFlags : Nat) (s : ShaderCacheState)
    (hhit : (mapFind? (shaderHash source entry profile compileFlags) s.cache).isSome) :
    (GetShaderBlob compileFn source entry profile compileFlags s).state.dirty = s.dirty
    ∧ ∀ k : Nat,
      (mapFind? k (GetShaderBlob compileFn source entry profile compileFlags s).state.cache).isSome
        = (mapFind? k s.cache).isSome := by
  cases hfind : mapFind? (shaderHash source entry profile compileFlags) s.cache with
  | none => simp [hfind] at hhit
  | some ob =>
    cases ob with
    | some blob =>
      rw [GetShaderBlob_hit compileFn source entry profile compileFlags s blob hfind]
      refine ⟨rfl, fun k => ?_⟩
      rw [mapFind?_cacheAddRef]
      by_cases h : shaderHash source entry profile compileFlags = k <;> simp [h]
    | none =>
      unfold GetShaderBlob
      simp [hfind]

theorem runSession_all_hits_clean
    (compileFn : String → String → String → Nat → CompileResult)
    (file : Option CacheFile) (magic version : Nat) (calls : List ShaderRequest)
    (hload : (LoadShaderCache file magic version).1 = true)
    (hhits : ∀ c ∈ calls,
      (mapFind? (shaderHash c.source c.entry c.profile c.flags)
        (LoadShaderCache file magic version).2).isSome) :
    (runSession compileFn file magic version calls).dirty = false := by
  have main : ∀ (cs : List ShaderRequest) (st : ShaderCacheState),
      st.dirty = false →
      (∀ c ∈ cs, (mapFind? (shaderHash c.source c.entry c.profile c.flags) st.cache).isSome) →
      (cs.foldl (fun st c =>
        (GetShaderBlob compileFn c.source c.entry c.profile c.flags st).state) st).dirty
        = false := by
    intro cs
    induction cs with
    | nil => intro st h _; simpa
    | cons c rest ih =>
      intro st h hall
      have hc := hall c (by simp)
      have hp := GetShaderBlob_hit_preserves compileFn c.source c.entry c.profile c.flags st hc
      refine ih _ (by rw [hp.1]; exact h) ?_
      intro c' hc'
      rw [hp.2]
      exact hall c' (List.mem_cons_of_mem _ hc')
  refine main calls _ ?_ hhits
  simp [initShaderCacheState, hload]

/-- C8: the cache file is written at destruction iff the session dirtied the
cache: a failed or magic/version-mismatched load forces a write at
shutdown regardless of the calls served; a successful load followed only by
cache hits leaves the cache clean, so shutdown writes nothing and releases
every resident entry; and in general a clean shutdown releases every entry
without touching the file while a dirty one serializes every resident
entry. -/
theorem ShaderCache_persisted_iff_dirty
    (compileFn : String → String → String → Nat → CompileResult)
    (file : Option CacheFile) (magic version : Nat) (calls : List ShaderRequest) :
    ((LoadShaderCache file magic version).1 = false →
      ∃ out : List (Nat × List Nat),
        shutdownShaderCache (runSession compileFn file magic version calls) = (some out, []))
    ∧ ((LoadShaderCache file magic version).1 = true →
      (∀ c ∈ calls,
        (mapFind? (shaderHash c.source c.entry c.profile c.flags)
          (LoadShaderCache file magic version).2).isSome) →
      shutdownShaderCache (runSession compileFn file magic version calls) =
        (none, entriesData (runSession compileFn file magic version calls).cache))
    ∧ (∀ st : ShaderCacheState, st.dirty = false →
        shutdownShaderCache st = (none, entriesData st.cache))
    ∧ (∀ st : ShaderCacheState, st.dirty = true →
        shutdownShaderCache st = (some (entriesData st.cache), [])) := by
  refine ⟨?_, ?_, ?_, ?_⟩
  · intro hload
    have hdirty : (runSession compileFn file magic version calls).dirty = true := by
      have main : ∀ (cs : List ShaderRequest) (st : ShaderCacheState),
          st.dirty = true →
          (cs.foldl (fun st c =>
            (GetShaderBlob compileFn c.source c.entry c.profile c.flags st).state) st).dirty
            = true := by
        intro cs
        induction cs with
        | nil => intro st h; simpa
        | cons c rest ih =>
          intro st h
          exact ih _ (GetShaderBlob_dirty_mono compileFn c.source c.entry c.profile c.flags st h)
      refine main calls _ ?_
      simp [initShaderCacheState, hload]
    exact ⟨entriesData (runSession compileFn file magic version calls).cache,
      by simp [shutdownShaderCache, hdirty]⟩
  · intro hload hhits
    have := runSession_all_hits_clean compileFn file magic version calls hload hhits
    simp [shutdownShaderCache, this]
  · intro st h; simp [shutdownShaderCache, h]
  · intro st h; simp [shutdownShaderCache, h]

/-- Witness for C8: a mismatched-magic file forces a shutdown write; a
matching file whose single entry is hit leaves the file untouched and
releases the entry. -/
theorem ShaderCache_persisted_iff_dirty_witness :
    ((LoadShaderCache (some ⟨7, 1, []⟩) 9 1).1 = false
      ∧ ∃ out : List (Nat × List Nat),
        shutdownShaderCache (runSession (fun _ _ _ _ => CompileResult.failure none)
          (some ⟨7, 1, []⟩) 9 1 []) = (some out, []))
    ∧ ((LoadShaderCache (some ⟨9, 1, [(shaderHash "s" "e" "p" 0, [1])]⟩) 9 1).1 = true
      ∧ shutdownShaderCache (runSession (fun _ _ _ _ => CompileResult.failure none)
          (some ⟨9, 1, [(shaderHash "s" "e" "p" 0, [1])]⟩) 9 1 [⟨"s", "e", "p", 0⟩]) =
        (none, entriesData (runSession (fun _ _ _ _ => CompileResult.failure none)
          (some ⟨9, 1, [(shaderHash "s" "e" "p" 0, [1])]⟩) 9 1 [⟨"s", "e", "p", 0⟩]).cache)) :=
  ⟨⟨by decide,
    (ShaderCache_persisted_iff_dirty (fun _ _ _ _ => CompileResult.failure none)
      (some ⟨7, 1, []⟩) 9 1 []).1 (by decide)⟩,
   ⟨by decide,
    (ShaderCache_persisted_iff_dirty (fun _ _ _ _ => CompileResult.failure none)
      (some ⟨9, 1, [(shaderHash "s" "e" "p" 0, [1])]⟩) 9 1 [⟨"s", "e", "p", 0⟩]).2.1
      (by decide) (by decide)⟩⟩

/-! ## 32-bit float model

Rationals extended with NaN and signed infinities.  Arithmetic is exact on
finite values except that results beyond the largest representable finite
32-bit float overflow to infinity; special values propagate as in IEEE 754.
-/

/-- Largest finite 32-bit float, `FLT_MAX = (2 - 2^-23) * 2^127`. -/
def FLT_MAX_Q : ℚ := 2 ^ 128 - 2 ^ 104

/-- A 32-bit float value: NaN, an infinity (`true` = positive), or a finite
value. -/
inductive F32 where
  | nan : F32
  | inf : Bool → F32
  | num : ℚ → F32
deriving DecidableEq

/-- Clamp an exact result into the representable range, overflowing to the
appropriately signed infinity. -/
def mkF32 (q : ℚ) : F32 :=
  if FLT_MAX_Q < q then .inf true
  else if q < -FLT_MAX_Q then .inf false
  else .num q

def F32.isNaN : F32 → Bool
  | .nan => true
  | _ => false

/-- `_finite`: true exactly on finite (non-NaN, non-infinite) values. -/
def F32.isFinite : F32 → Bool
  | .num _ => true
  | _ => false

def F32.add : F32 → F32 → F32
  | .nan, _ => .nan
  | _, .nan => .nan
  | .inf s, .inf t => if s = t then .inf s else .nan
  | .inf s, .num _ => .inf s
  | .num _, .inf t => .inf t
  | .num a, .num b => mkF32 (a + b)

def F32.sub : F32 → F32 → F32
  | .nan, _ => .nan
  | _, .nan => .nan
  | .inf s, .inf t => if s = t then .nan else .inf s
  | .inf s, .num _ => .inf s
  | .num _, .inf t => .inf (!t)
  | .num a, .num b => mkF32 (a - b)

def F32.div : F32 → F32 → F32
  | .nan, _ => .nan
  | _, .nan => .nan
  | .inf _, .inf _ => .nan
  | .inf s, .num b => if b < 0 then .inf (!s) else .inf s
  | .num _, .inf _ => .num 0
  | .num a, .num b =>
    if b = 0 then (if a = 0 then .nan else .inf (decide (0 ≤ a))) else mkF32 (a / b)

/-- The `<=` comparison on floats: false whenever either side is NaN. -/
def F32.le : F32 → F32 → Bool
  | .nan, _ => false
  | _, .nan => false
  | .inf s, .inf t => !s || t
  | .inf s, .num _ => !s
  | .num _, .inf t => t
  | .num a, .num b => decide (a ≤ b)

/-- The intensity-range computation of `RenderTexture` (lines 1401-1415):
when `rangemax <= rangemin` the maximum is nudged up by `0.00001f`; the
inverse range size `1 / (rangemax - rangemin)` is clamped to `FLT_MAX` when
it is NaN or not finite.  Returns `(RangeMinimum, InverseRangeSize)` as
written to the pixel constant buffer. -/
def texDisplayRange (rangemin rangemax : F32) : F32 × F32 :=
  let rangemax := if F32.le rangemax rangemin then F32.add rangemax (.num (1 / 100000)) else rangemax
  let inv := F32.div (.num 1) (F32.sub rangemax rangemin)
  let inv := if inv.isNaN || !inv.isFinite then .num FLT_MAX_Q else inv
  (rangemin, inv)

/-- C9: for a `RenderTexture` call with `rangemax <= rangemin`, the inverse
range value written to the pixel constant buffer is never NaN and never
infinite: the range maximum is nudged by a tiny positive increment and any
remaining non-finite reciprocal is clamped to the largest finite float. -/
theorem RenderTexture_inverse_range_finite (rangemin rangemax : F32)
    (h : F32.le rangemax rangemin = true) :
    (texDisplayRange rangemin rangemax).2.isNaN = false
    ∧ (texDisplayRange rangemin rangemax).2.isFinite = true := by
  unfold texDisplayRange
  simp only [h, if_true]
  generalize F32.div (.num 1) (F32.sub (F32.add rangemax (.num (1 / 100000))) rangemin) = x
  cases x <;> simp [F32.isNaN, F32.isFinite]

/-- Witness for C9: a degenerate range with both endpoints zero. -/
theorem RenderTexture_inverse_range_finite_witness :
    F32.le (.num 0) (.num 0) = true
    ∧ (texDisplayRange (.num 0) (.num 0)).2.isNaN = false
    ∧ (texDisplayRange (.num 0) (.num 0)).2.isFinite = true :=
  ⟨by decide,
   (RenderTexture_inverse_range_finite (.num 0) (.num 0) (by decide)).1,
   (RenderTexture_inverse_range_finite (.num 0) (.num 0) (by decide)).2⟩

/-! ## Output windows (`MakeOutputWindow` and friends, lines 836-1200)

The device and swap-chain collaborators are modelled as always-successful
state updates; `GetClientRect` is modelled by passing the window's current
client-area size as parameters. -/

/-- DXGI_FORMAT_R8G8B8A8_UNORM, the swap-chain buffer format (line 933). -/
def DXGI_FORMAT_R8G8B8A8_UNORM : Nat := 28

/-- A committed GPU resource; only the dimensions are observable here. -/
structure DbgResource where
  width : Int
  height : Int
deriving DecidableEq

/-- An `IDXGISwapChain` as observable through `GetDesc`/`ResizeBuffers`. -/
structure SwapChain where
  bufferCount : Nat
  format : Nat
  width : Int
  height : Int
deriving DecidableEq

/-- `D3D12DebugManager::OutputWindow`: native window, swap chain, cached
client dimensions, the two back buffers and the toggling index, the
intermediate colour target, the optional depth target, and the RTV/DSV
descriptor slots assigned at creation. -/
structure OutputWindow where
  wnd : Option Int
  swap : Option SwapChain
  width : Int
  height : Int
  bb0 : Option DbgResource
  bb1 : Option DbgResource
  bbIdx : Nat
  col : Option DbgResource
  depth : Option DbgResource
  rtvSlot : Nat
  dsvSlot : Nat
deriving DecidableEq

/-- The output-window related fields of `D3D12DebugManager`:
`m_OutputWindowID`, `m_OutputWindows`, `m_CurrentOutputWindow` and the
output dimensions set by `SetOutputDimensions`. -/
structure DebugManager where
  outputWindowID : Nat
  outputWindows : List (Nat × OutputWindow)
  currentOutputWindow : Nat
  width : Int
  height : Int
deriving DecidableEq

/-- The constructor state (lines 91, 96): `m_OutputWindowID = 1`,
`m_width = m_height = 1`, empty window table. -/
def initialDebugManager : DebugManager :=
  { outputWindowID := 1, outputWindows := [], currentOutputWindow := 0,
    width := 1, height := 1 }

/-- Resources appearing in recorded commands, relative to the call's output
window: the intermediate colour target, a back buffer, or the displayed
texture of `RenderTexture`. -/
inductive ResRef where
  | col : ResRef
  | backbuffer : Nat → ResRef
  | tex : ResRef
deriving DecidableEq

/-- D3D12_RESOURCE_STATES values appearing in the modelled code. -/
inductive ResState where
  | renderTarget : ResState
  | present : ResState
  | copySource : ResState
  | copyDest : ResState
  | pixelShaderResource : ResState
  | other : Nat → ResState
deriving DecidableEq

/-- Commands recorded into a command list and queue operations, in program
order. -/
inductive DbgEvent where
  | barrier (r : ResRef) (sub : Nat) (stateBefore stateAfter : ResState)
  | copyResource (dst src : ResRef)
  | draw (vertexCount instanceCount : Nat)
  | clearRTV
  | clearDSV
  | closeList
  | executeLists
  | flushLists
  | present
deriving DecidableEq

/-- `D3D12DebugManager::MakeOutputWindow` (lines 918-978): reads the client
rectangle, creates a two-buffer `R8G8B8A8_UNORM` swap chain at that size,
acquires both back buffers, computes RTV/DSV descriptor handles offset by
the current `m_OutputWindowID`, builds the colour target (and depth target
when requested), then returns `m_OutputWindowID++` as the handle after
inserting the window into the table. -/
def MakeOutputWindow (s : DebugManager) (wndId clientW clientH : Int)
    (depth : Bool) : DebugManager × Nat :=
  let bb : Option DbgResource := some { width := clientW, height := clientH }
  let outw : OutputWindow :=
    { wnd := some wndId
      swap := some { bufferCount := 2, format := DXGI_FORMAT_R8G8B8A8_UNORM,
                     width := clientW, height := clientH }
      width := clientW
      height := clientH
      bb0 := bb
      bb1 := bb
      bbIdx := 0
      col := some { width := clientW, height := clientH }
      depth := if depth then some { width := clientW, height := clientH } else none
      rtvSlot := s.outputWindowID
      dsvSlot := s.outputWindowID }
  let id := s.outputWindowID
  ({ s with outputWindowID := id + 1,
            outputWindows := mapInsert id outw s.outputWindows }, id)

/-- `D3D12DebugManager::DestroyOutputWindow` (lines 980-995): a handle of 0
or one not in the table is ignored; otherwise the window's resources are
released and the entry erased. -/
def DestroyOutputWindow (s : DebugManager) (id : Nat) : DebugManager :=
  if id = 0 then s
  else
    match mapFind? id s.outputWindows with
    | none => s
    | some _ => { s with outputWindows := mapErase id s.outputWindows }

/-- `D3D12DebugManager::CheckResizeOutputWindow` (lines 997-1057): compares
the cached dimensions against the live client rectangle; on a change the
cached dimensions are updated and, when both are positive, the back
buffers are re-acquired after `ResizeBuffers` (which keeps the buffer
count and format from `GetDesc`), the index is reset and the colour (and
depth) targets are rebuilt; returns whether anything changed. -/
def CheckResizeOutputWindow (s : DebugManager) (id : Nat)
    (clientW clientH : Int) : DebugManager × Bool :=
  if id = 0 then (s, false)
  else
    match mapFind? id s.outputWindows with
    | none => (s, false)
    | some outw =>
      if outw.wnd = none ∨ outw.swap = none then (s, false)
      else if clientW ≠ outw.width ∨ clientH ≠ outw.height then
        let outw1 := { outw with width := clientW, height := clientH }
        let outw2 :=
          if 0 < clientW ∧ 0 < clientH then
            match outw1.swap with
            | some sw =>
              let bb : Option DbgResource := some { width := clientW, height := clientH }
              let outw2 :=
                { outw1 with
                  swap := some { sw with width := clientW, height := clientH }
                  bb0 := bb
                  bb1 := bb
                  bbIdx := 0
                  col := some { width := clientW, height := clientH } }
              if outw2.depth ≠ none then
                { outw2 with depth := some { width := clientW, height := clientH } }
              else outw2
            | none => outw1
          else outw1
        ({ s with outputWindows := mapInsert id outw2 s.outputWindows }, true)
      else (s, false)

/-- `D3D12DebugManager::GetOutputWindowDimensions` (lines 1059-1066): the
out-parameters are written only for a live handle. -/
def GetOutputWindowDimensions (s : DebugManager) (id : Nat) (w h : Int) :
    Int × Int :=
  if id = 0 then (w, h)
  else
    match mapFind? id s.outputWindows with
    | none => (w, h)
    | some outw => (outw.width, outw.height)

/-- `D3D12DebugManager::ClearOutputWindowColour` (lines 1068-1078). -/
def ClearOutputWindowColour (s : DebugManager) (id : Nat)
    (col : F32 × F32 × F32 × F32) : DebugManager × List DbgEvent :=
  if id = 0 then (s, [])
  else
    match mapFind? id s.outputWindows with
    | none => (s, [])
    | some _ => (s, [.clearRTV, .closeList])

/-- `D3D12DebugManager::ClearOutputWindowDepth` (lines 1080-1092). -/
def ClearOutputWindowDepth (s : DebugManager) (id : Nat) (depth : F32)
    (stencil : Nat) : DebugManager × List DbgEvent :=
  if id = 0 then (s, [])
  else
    match mapFind? id s.outputWindows with
    | none => (s, [])
    | some _ => (s, [.clearDSV, .closeList])

/-- `D3D12DebugManager::BindOutputWindow` (lines 1094-1107): records the
current window, and for a window with live back buffers publishes its
dimensions through `SetOutputDimensions` (modelled from the spec: the
helper lives in the missing header and stores the output width/height). -/
def BindOutputWindow (s : DebugManager) (id : Nat) (depth : Bool) : DebugManager :=
  if id = 0 then s
  else
    match mapFind? id s.outputWindows with
    | none => s
    | some outw =>
      let s1 := { s with currentOutputWindow := id }
      if outw.bb0 = none then s1
      else { s1 with width := outw.width, height := outw.height }

/-- `D3D12DebugManager::FlipOutputWindow` (lines 1117-1167): for a live
window with back buffers, transitions the colour target to copy-source and
the current back buffer to copy-dest, copies, transitions both back,
closes, executes and flushes the list, presents, and only then advances
`bbIdx` modulo 2. -/
def FlipOutputWindow (s : DebugManager) (id : Nat) : DebugManager × List DbgEvent :=
  if id = 0 then (s, [])
  else
    match mapFind? id s.outputWindows with
    | none => (s, [])
    | some outw =>
      if outw.bb0 = none then (s, [])
      else
        ({ s with outputWindows :=
             mapInsert id { outw with bbIdx := (outw.bbIdx + 1) % 2 } s.outputWindows },
         [.barrier .col 0 .renderTarget .copySource,
          .barrier (.backbuffer outw.bbIdx) 0 .present .copyDest,
          .copyResource (.backbuffer outw.bbIdx) .col,
          .barrier .col 0 .copySource .renderTarget,
          .barrier (.backbuffer outw.bbIdx) 0 .copyDest .present,
          .closeList, .executeLists, .flushLists, .present])

/-- `D3D12DebugManager::AllocRTV` (lines 1185-1194): returns the RTV heap
slot at index `m_OutputWindowID` and increments the shared counter. -/
def AllocRTV (s : DebugManager) : DebugManager × Nat :=
  ({ s with outputWindowID := s.outputWindowID + 1 }, s.outputWindowID)


/-- C5: after `CheckResizeOutputWindow` on a live surface with a window and
swap chain, the stored dimensions equal the window's current client size;
the call returns true exactly when the size differed; a changed size with a
non-positive dimension skips the swap-chain resize and target rebuild but
still stores the dimensions and returns true; a changed positive size
resets the back-buffer index to 0 and resizes the swap chain preserving its
buffer count and format. -/
theorem CheckResizeOutputWindow_spec (s : DebugManager) (id : Nat)
    (outw : OutputWindow) (sw : SwapChain) (clientW clientH : Int)
    (hid : id ≠ 0) (hfind : mapFind? id s.outputWindows = some outw)
    (hwnd : outw.wnd ≠ none) (hswap : outw.swap = some sw) :
    (∃ outw' : OutputWindow,
      mapFind? id (CheckResizeOutputWindow s id clientW clientH).1.outputWindows =
        some outw'
      ∧ outw'.width = clientW ∧ outw'.height = clientH)
    ∧ ((CheckResizeOutputWindow s id clientW clientH).2 = true ↔
        (clientW ≠ outw.width ∨ clientH ≠ outw.height))
    ∧ ((clientW ≠ outw.width ∨ clientH ≠ outw.height) → (clientW ≤ 0 ∨ clientH ≤ 0) →
        CheckResizeOutputWindow s id clientW clientH =
          ({ s with outputWindows :=
              (mapInsert id { outw with width := clientW, height := clientH }
                s.outputWindows) }, true))
    ∧ ((clientW ≠ outw.width ∨ clientH ≠ outw.height) → 0 < clientW → 0 < clientH →
        ∃ outw' : OutputWindow,
          mapFind? id (CheckResizeOutputWindow s id clientW clientH).1.outputWindows =
            some outw'
          ∧ outw'.bbIdx = 0
          ∧ outw'.swap = some { bufferCount := sw.bufferCount, format := sw.format,
                                width := clientW, height := clientH }
          ∧ (CheckResizeOutputWindow s id clientW clientH).2 = true) := by
  have hguard : ¬ (outw.wnd = none ∨ outw.swap = none) := by
    rintro (h | h)
    · exact hwnd h
    · rw [hswap] at h; exact Option.noConfusion h
  by_cases hch : clientW ≠ outw.width ∨ clientH ≠ outw.height
  · by_cases hpos : 0 < clientW ∧ 0 < clientH
    · by_cases hd : outw.depth ≠ none
      · have hres : CheckResizeOutputWindow s id clientW clientH =
            ({ s with outputWindows := (mapInsert id
                { outw with
                  width := clientW
                  height := clientH
                  swap := some { sw with width := clientW, height := clientH }
                  bb0 := some { width := clientW, height := clientH }
                  bb1 := some { width := clientW, height := clientH }
                  bbIdx := 0
                  col := some { width := clientW, height := clientH }
                  depth := some { width := clientW, height := clientH } }
                s.outputWindows) }, true) := by
          simp [CheckResizeOutputWindow, hid, hfind, hwnd, hch, hpos, hswap, hd]
        refine ⟨⟨_, by rw [hres]; exact mapFind?_mapInsert_self id _ _, rfl, rfl⟩, ?_, ?_, ?_⟩
        · rw [hres]; simpa using hch
        · intro _ hnp; exact absurd hnp (by omega)
        · intro _ _ _
          exact ⟨_, by rw [hres]; exact mapFind?_mapInsert_self id _ _, rfl, rfl,
            by rw [hres]⟩
      · have hres : CheckResizeOutputWindow s id clientW clientH =
            ({ s with outputWindows := (mapInsert id
                { outw with
                  width := clientW
                  height := clientH
                  swap := some { sw with width := clientW, height := clientH }
                  bb0 := some { width := clientW, height := clientH }
                  bb1 := some { width := clientW, height := clientH }
                  bbIdx := 0
                  col := some { width := clientW, height := clientH } }
                s.outputWindows) }, true) := by
          simp [CheckResizeOutputWindow, hid, hfind, hwnd, hch, hpos, hswap, hd]
        refine ⟨⟨_, by rw [hres]; exact mapFind?_mapInsert_self id _ _, rfl, rfl⟩, ?_, ?_, ?_⟩
        · rw [hres]; simpa using hch
        · intro _ hnp; exact absurd hnp (by omega)
        · intro _ _ _
          exact ⟨_, by rw [hres]; exact mapFind?_mapInsert_self id _ _, rfl, rfl,
            by rw [hres]⟩
    · have hres : CheckResizeOutputWindow s id clientW clientH =
          ({ s with outputWindows :=
              (mapInsert id { outw with width := clientW, height := clientH }
                s.outputWindows) }, true) := by
        simp [CheckResizeOutputWindow, hid, hfind, hwnd, hch, hpos, hswap]
      refine ⟨⟨_, by rw [hres]; exact mapFind?_mapInsert_self id _ _, rfl, rfl⟩, ?_, ?_, ?_⟩
      · rw [hres]; simpa using hch
      · intro _ _; exact hres
      · intro _ hw hh; exact absurd ⟨hw, hh⟩ hpos
  · push_neg at hch
    have hres : CheckResizeOutputWindow s id clientW clientH = (s, false) := by
      simp [CheckResizeOutputWindow, hid, hfind, hwnd, hswap, hch.1, hch.2]
    refine ⟨⟨outw, by rw [hres]; exact hfind, hch.1.symm, hch.2.symm⟩, ?_, ?_, ?_⟩
    · rw [hres]; simp [hch.1, hch.2]
    · rintro (h | h) _
      · exact absurd hch.1 h
      · exact absurd hch.2 h
    · rintro (h | h) _ _
      · exact absurd hch.1 h
      · exact absurd hch.2 h

/-- Witness for C5: a live 4x4 surface resized to 8x6 reports a change. -/
theorem CheckResizeOutputWindow_spec_witness :
    (CheckResizeOutputWindow
        ⟨2, [(1, ⟨some 10, some ⟨2, 28, 4, 4⟩, 4, 4, some ⟨4, 4⟩, some ⟨4, 4⟩, 1,
          some ⟨4, 4⟩, none, 1, 1⟩)], 1, 4, 4⟩ 1 8 6).2 = true ↔
      ((8 : Int) ≠ 4 ∨ (6 : Int) ≠ 4) :=
  (CheckResizeOutputWindow_spec
    ⟨2, [(1, ⟨some 10, some ⟨2, 28, 4, 4⟩, 4, 4, some ⟨4, 4⟩, some ⟨4, 4⟩, 1,
      some ⟨4, 4⟩, none, 1, 1⟩)], 1, 4, 4⟩ 1
    ⟨some 10, some ⟨2, 28, 4, 4⟩, 4, 4, some ⟨4, 4⟩, some ⟨4, 4⟩, 1, some ⟨4, 4⟩,
      none, 1, 1⟩ ⟨2, 28, 4, 4⟩ 8 6 (by decide) (by decide) (by decide)
    (by decide)).2.1

/-- C6: `FlipOutputWindow` on a live surface with back buffers records, in
order, the transitions of the colour target (render-target to copy-source)
and the current back buffer (present to copy-dest), the copy, the two
inverse transitions, close, execute, flush and present, and only the state
after all of that has the back-buffer index advanced modulo 2; a surface
with null back buffers is left untouched with no commands recorded. -/
theorem FlipOutputWindow_spec (s : DebugManager) (id : Nat) (outw : OutputWindow)
    (r0 : DbgResource) (hid : id ≠ 0)
    (hfind : mapFind? id s.outputWindows = some outw) (hbb : outw.bb0 = some r0) :
    FlipOutputWindow s id =
      ({ s with outputWindows :=
          (mapInsert id { outw with bbIdx := (outw.bbIdx + 1) % 2 }
            s.outputWindows) },
       [.barrier .col 0 .renderTarget .copySource,
        .barrier (.backbuffer outw.bbIdx) 0 .present .copyDest,
        .copyResource (.backbuffer outw.bbIdx) .col,
        .barrier .col 0 .copySource .renderTarget,
        .barrier (.backbuffer outw.bbIdx) 0 .copyDest .present,
        .closeList, .executeLists, .flushLists, .present])
    ∧ (∀ (s' : DebugManager) (id' : Nat) (outw' : OutputWindow),
        mapFind? id' s'.outputWindows = some outw' → outw'.bb0 = none →
        FlipOutputWindow s' id' = (s', [])) := by
  constructor
  · simp [FlipOutputWindow, hid, hfind, hbb]
  · intro s' id' outw' hf hb
    by_cases h0 : id' = 0
    · simp [FlipOutputWindow, h0]
    · simp [FlipOutputWindow, h0, hf, hb]

/-- Witness for C6: flipping a live surface whose index is 1 wraps it to 0
and records the barrier/copy/present sequence. -/
theorem FlipOutputWindow_spec_witness :
    FlipOutputWindow
        ⟨2, [(1, ⟨some 10, some ⟨2, 28, 4, 4⟩, 4, 4, some ⟨4, 4⟩, some ⟨4, 4⟩, 1,
          some ⟨4, 4⟩, none, 1, 1⟩)], 1, 4, 4⟩ 1 =
      (⟨2, [(1, ⟨some 10, some ⟨2, 28, 4, 4⟩, 4, 4, some ⟨4, 4⟩, some ⟨4, 4⟩, 0,
          some ⟨4, 4⟩, none, 1, 1⟩)], 1, 4, 4⟩,
       [.barrier .col 0 .renderTarget .copySource,
        .barrier (.backbuffer 1) 0 .present .copyDest,
        .copyResource (.backbuffer 1) .col,
        .barrier .col 0 .copySource .renderTarget,
        .barrier (.backbuffer 1) 0 .copyDest .present,
        .closeList, .executeLists, .flushLists, .present]) :=
  (FlipOutputWindow_spec
    ⟨2, [(1, ⟨some 10, some ⟨2, 28, 4, 4⟩, 4, 4, some ⟨4, 4⟩, some ⟨4, 4⟩, 1,
      some ⟨4, 4⟩, none, 1, 1⟩)], 1, 4, 4⟩ 1
    ⟨some 10, some ⟨2, 28, 4, 4⟩, 4, 4, some ⟨4, 4⟩, some ⟨4, 4⟩, 1, some ⟨4, 4⟩,
      none, 1, 1⟩ ⟨4, 4⟩ (by decide) (by decide) (by decide)).1

/-- C7: every output-window operation invoked with handle 0 or a handle
absent from the window table returns without mutating the manager state,
records no commands, reports no resize, and the dimension query leaves its
out-parameters untouched. -/
theorem OutputWindow_unknown_handle_noop (s : DebugManager) (id : Nat)
    (clientW clientH wv hv : Int) (col4 : F32 × F32 × F32 × F32) (dv : F32)
    (stencil : Nat) (df : Bool)
    (h : id = 0 ∨ mapFind? id s.outputWindows = none) :
    DestroyOutputWindow s id = s
    ∧ ClearOutputWindowColour s id col4 = (s, [])
    ∧ ClearOutputWindowDepth s id dv stencil = (s, [])
    ∧ FlipOutputWindow s id = (s, [])
    ∧ CheckResizeOutputWindow s id clientW clientH = (s, false)
    ∧ BindOutputWindow s id df = s
    ∧ GetOutputWindowDimensions s id wv hv = (wv, hv) := by
  by_cases h0 : id = 0
  · subst h0
    exact ⟨by simp [DestroyOutputWindow], by simp [ClearOutputWindowColour],
      by simp [ClearOutputWindowDepth], by simp [FlipOutputWindow],
      by simp [CheckResizeOutputWindow], by simp [BindOutputWindow],
      by simp [GetOutputWindowDimensions]⟩
  · have hn : mapFind? id s.outputWindows = none := by
      rcases h with h | h
      · exact absurd h h0
      · exact h
    exact ⟨by simp [DestroyOutputWindow, h0, hn], by simp [ClearOutputWindowColour, h0, hn],
      by simp [ClearOutputWindowDepth, h0, hn], by simp [FlipOutputWindow, h0, hn],
      by simp [CheckResizeOutputWindow, h0, hn], by simp [BindOutputWindow, h0, hn],
      by simp [GetOutputWindowDimensions, h0, hn]⟩

/-- Witness for C7: handle 5 was never issued on the freshly constructed
manager. -/
theorem OutputWindow_unknown_handle_noop_witness :
    DestroyOutputWindow initialDebugManager 5 = initialDebugManager
    ∧ ClearOutputWindowColour initialDebugManager 5 (.num 0, .num 0, .num 0, .num 1) =
        (initialDebugManager, [])
    ∧ ClearOutputWindowDepth initialDebugManager 5 (.num 1) 0 =
        (initialDebugManager, [])
    ∧ FlipOutputWindow initialDebugManager 5 = (initialDebugManager, [])
    ∧ CheckResizeOutputWindow initialDebugManager 5 64 64 = (initialDebugManager, false)
    ∧ BindOutputWindow initialDebugManager 5 false = initialDebugManager
    ∧ GetOutputWindowDimensions initialDebugManager 5 7 9 = (7, 9) :=
  OutputWindow_unknown_handle_noop initialDebugManager 5 64 64 7 9
    (.num 0, .num 0, .num 0, .num 1) (.num 1) 0 false (by decide)

/-! ## Shared handle/RTV-slot counter (`m_OutputWindowID`) -/

/-- Operations that interact with the shared `m_OutputWindowID` counter:
window creation, standalone RTV slot allocation, and (counter-neutral)
window destruction. -/
inductive AllocOp where
  | mkWin (wndId clientW clientH : Int) (depth : Bool)
  | rtv
  | destroyWin (id : Nat)
deriving DecidableEq

/-- Whether an operation consumes a counter value. -/
def AllocOp.consumesId : AllocOp → Bool
  | .destroyWin _ => false
  | _ => true

/-- Run a sequence of allocation operations, collecting the handles and
slot indices they return, in order. -/
def runAllocs (s : DebugManager) : List AllocOp → DebugManager × List Nat
  | [] => (s, [])
  | .mkWin w cw ch d :: ops =>
    ((runAllocs (MakeOutputWindow s w cw ch d).1 ops).1,
     (MakeOutputWindow s w cw ch d).2 :: (runAllocs (MakeOutputWindow s w cw ch d).1 ops).2)
  | .rtv :: ops =>
    ((runAllocs (AllocRTV s).1 ops).1,
     (AllocRTV s).2 :: (runAllocs (AllocRTV s).1 ops).2)
  | .destroyWin id :: ops => runAllocs (DestroyOutputWindow s id) ops

theorem mapFind?_mem {α : Type} (k : Nat) (v : α) (l : List (Nat × α)) :
    mapFind? k l = some v → (k, v) ∈ l := by
  induction l with
  | nil => simp [mapFind?]
  | cons p t ih =>
    obtain ⟨pk, pv⟩ := p
    by_cases h : pk = k
    · subst h
      simp only [mapFind?, if_pos rfl]
      intro hf
      cases Option.some.inj hf
      exact List.mem_cons_self _ _
    · intro hf
      exact List.mem_cons_of_mem _ (ih (by simpa [mapFind?, h] using hf))

theorem mem_mapInsert {α : Type} (k : Nat) (v : α) (l : List (Nat × α))
    (p : Nat × α) : p ∈ mapInsert k v l → p = (k, v) ∨ p ∈ l := by
  induction l with
  | nil => simp [mapInsert]
  | cons q t ih =>
    obtain ⟨qk, qv⟩ := q
    by_cases h : qk = k
    · simp only [mapInsert, if_pos h]
      intro hp
      rcases List.mem_cons.1 hp with rfl | hm
      · exact Or.inl rfl
      · exact Or.inr (List.mem_cons_of_mem _ hm)
    · simp only [mapInsert, if_neg h]
      intro hp
      rcases List.mem_cons.1 hp with rfl | hm
      · exact Or.inr (List.mem_cons_self _ _)
      · rcases ih hm with h' | h'
        · exact Or.inl h'
        · exact Or.inr (List.mem_cons_of_mem _ h')

theorem mem_mapErase {α : Type} (k : Nat) (l : List (Nat × α)) (p : Nat × α) :
    p ∈ mapErase k l → p ∈ l := by
  induction l with
  | nil => simp [mapErase]
  | cons q t ih =>
    obtain ⟨qk, qv⟩ := q
    by_cases h : qk = k
    · simp only [mapErase, if_pos h]
      exact fun hm => List.mem_cons_of_mem _ hm
    · simp only [mapErase, if_neg h]
      intro hp
      rcases List.mem_cons.1 hp with rfl | hm
      · exact List.mem_cons_self _ _
      · exact List.mem_cons_of_mem _ (ih hm)

theorem DestroyOutputWindow_outputWindowID (s : DebugManager) (id : Nat) :
    (DestroyOutputWindow s id).outputWindowID = s.outputWindowID := by
  unfold DestroyOutputWindow
  by_cases h : id = 0
  · simp [h]
  · cases hf : mapFind? id s.outputWindows <;> simp [h, hf]

theorem runAllocs_results (ops : List AllocOp) : ∀ s : DebugManager,
    (runAllocs s ops).2 =
      List.range' s.outputWindowID (ops.countP (fun op => op.consumesId)) := by
  induction ops with
  | nil => intro s; simp [runAllocs]
  | cons op rest ih =>
    intro s
    cases op with
    | mkWin w cw ch d =>
      simp [runAllocs, MakeOutputWindow, ih, List.countP_cons, AllocOp.consumesId,
        List.range'_succ]
    | rtv =>
      simp [runAllocs, AllocRTV, ih, List.countP_cons, AllocOp.consumesId,
        List.range'_succ]
    | destroyWin id =>
      simp [runAllocs, ih, List.countP_cons, AllocOp.consumesId,
        DestroyOutputWindow_outputWindowID]

/-- The invariant relating table entries to the counter: each stored window
sits under a positive handle equal to both its descriptor slots. -/
def slotInvariant (s : DebugManager) : Prop :=
  1 ≤ s.outputWindowID ∧
  ∀ p ∈ s.outputWindows,
    (p : Nat × OutputWindow).2.rtvSlot = p.1 ∧ p.2.dsvSlot = p.1 ∧ 1 ≤ p.1

theorem runAllocs_slotInvariant (ops : List AllocOp) : ∀ s : DebugManager,
    slotInvariant s → slotInvariant (runAllocs s ops).1 := by
  induction ops with
  | nil => intro s hs; simpa [runAllocs]
  | cons op rest ih =>
    intro s hs
    cases op with
    | mkWin w cw ch d =>
      refine ih _ ⟨by simp [MakeOutputWindow], ?_⟩
      intro p hp
      rcases mem_mapInsert _ _ _ _ (by simpa [MakeOutputWindow] using hp) with h | h
      · subst h
        exact ⟨rfl, rfl, hs.1⟩
      · exact hs.2 p h
    | rtv =>
      refine ih _ ⟨by simp [AllocRTV], ?_⟩
      intro p hp
      exact hs.2 p (by simpa [AllocRTV] using hp)
    | destroyWin id =>
      refine ih _ ⟨by rw [DestroyOutputWindow_outputWindowID]; exact hs.1, ?_⟩
      intro p hp
      refine hs.2 p ?_
      unfold DestroyOutputWindow at hp
      by_cases h : id = 0
      · simpa [h] using hp
      · cases hf : mapFind? id s.outputWindows with
        | none => simpa [h, hf] using hp
        | some w => exact mem_mapErase _ _ _ (by simpa [h, hf] using hp)

/-- C10: starting from the freshly constructed manager, every handle
returned by `MakeOutputWindow` and every slot index consumed by `AllocRTV`
is drawn from the one strictly increasing counter starting at 1 (the k-th
consuming operation returns `1 + k`), so returned values are strictly
increasing, never 0, never reused, and window handles never collide with
separately allocated RTV slots; moreover every window in the table keeps
its RTV and DSV descriptor slots equal to its own handle. -/
theorem OutputWindowID_shared_counter (ops : List AllocOp) :
    (runAllocs initialDebugManager ops).2 =
      List.range' 1 (ops.countP (fun op => op.consumesId))
    ∧ List.Pairwise (· < ·) (runAllocs initialDebugManager ops).2
    ∧ 0 ∉ (runAllocs initialDebugManager ops).2
    ∧ ∀ (id : Nat) (outw : OutputWindow),
        mapFind? id (runAllocs initialDebugManager ops).1.outputWindows = some outw →
        outw.rtvSlot = id ∧ outw.dsvSlot = id ∧ 1 ≤ id := by
  have hres := runAllocs_results ops initialDebugManager
  refine ⟨by simpa [initialDebugManager] using hres, ?_, ?_, ?_⟩
  · rw [hres]
    exact List.pairwise_lt_range' _ _
  · rw [hres]
    intro hmem
    have := (List.mem_range'_1.1 hmem).1
    simp [initialDebugManager] at this
  · intro id outw hf
    have hinv := runAllocs_slotInvariant ops initialDebugManager
      ⟨by simp [initialDebugManager], by simp [initialDebugManager]⟩
    exact hinv.2 (id, outw) (mapFind?_mem _ _ _ hf)

/-- Witness for C10: make, alloc an RTV slot, destroy the first window,
make again; the returned values are 1, 2, 3 and the second window's
descriptor slots equal its handle 3. -/
theorem OutputWindowID_shared_counter_witness :
    (runAllocs initialDebugManager
        [.mkWin 1 4 4 true, .rtv, .destroyWin 1, .mkWin 2 8 8 false]).2 =
      List.range' 1 3
    ∧ (mapFind? 3 (runAllocs initialDebugManager
          [.mkWin 1 4 4 true, .rtv, .destroyWin 1, .mkWin 2 8 8 false]).1.outputWindows =
        some ⟨some 2, some ⟨2, 28, 8, 8⟩, 8, 8, some ⟨8, 8⟩, some ⟨8, 8⟩, 0,
          some ⟨8, 8⟩, none, 3, 3⟩)
    ∧ ((⟨some 2, some ⟨2, 28, 8, 8⟩, 8, 8, some ⟨8, 8⟩, some ⟨8, 8⟩, 0,
          some ⟨8, 8⟩, none, 3, 3⟩ : OutputWindow).rtvSlot = 3
        ∧ (⟨some 2, some ⟨2, 28, 8, 8⟩, 8, 8, some ⟨8, 8⟩, some ⟨8, 8⟩, 0,
          some ⟨8, 8⟩, none, 3, 3⟩ : OutputWindow).dsvSlot = 3 ∧ 1 ≤ 3) :=
  ⟨by decide, by decide,
   (OutputWindowID_shared_counter
      [.mkWin 1 4 4 true, .rtv, .destroyWin 1, .mkWin 2 8 8 false]).2.2.2 3
      ⟨some 2, some ⟨2, 28, 8, 8⟩, 8, 8, some ⟨8, 8⟩, some ⟨8, 8⟩, 0,
        some ⟨8, 8⟩, none, 3, 3⟩ (by decide)⟩

/-! ## `RenderTexture` (lines 1379-1631)

The displayed resource is passed as its descriptor plus the per-subresource
states recorded by the wrapped device (`GetSubresourceStates`).  The pure
float computations feeding the vertex constant buffer (position/scale
fitting) are presentation-only and not modelled; the discrete pixel-shader
configuration and the barrier/draw sequence are. -/

/-- The overlay selector of `TextureDisplay` (`eTexOverlay_*`). -/
inductive TexOverlay where
  | none : TexOverlay
  | nanOverlay : TexOverlay
  | clipping : TexOverlay
  | other : TexOverlay
deriving DecidableEq

/-- The `TextureDisplay` configuration fields read by `RenderTexture`. -/
structure TextureDisplay where
  texid : Nat
  Red : Bool
  Green : Bool
  Blue : Bool
  Alpha : Bool
  rangemin : F32
  rangemax : F32
  scale : F32
  HDRMul : F32
  rawoutput : Bool
  FlipY : Bool
  offx : F32
  offy : F32
  sampleIdx : Nat
  mip : Nat
  sliceFace : Nat
  overlay : TexOverlay
  linearDisplayAsGamma : Bool
  CustomShader : Nat
deriving DecidableEq

/-- The format properties of the displayed resource that `RenderTexture`
inspects, via `DXGI_FORMAT_UNKNOWN`/`DXGI_FORMAT_A8_UNORM` comparisons and
the `IsUIntFormat`/`IsIntFormat`/`IsSRGBFormat` helpers of the missing
`dxgi_common.h`. -/
structure FormatInfo where
  unknown : Bool
  a8 : Bool
  uintTex : Bool
  sintTex : Bool
  srgb : Bool
deriving DecidableEq

/-- D3D12_RESOURCE_DIMENSION values distinguished by `RenderTexture`. -/
inductive ResourceDimension where
  | tex1D : ResourceDimension
  | tex2D : ResourceDimension
  | tex3D : ResourceDimension
  | buffer : ResourceDimension
deriving DecidableEq

/-- The fields of `D3D12_RESOURCE_DESC` read by `RenderTexture`. -/
structure ResourceDescM where
  format : FormatInfo
  width : Nat
  height : Nat
  depthOrArraySize : Nat
  sampleCount : Nat
  dimension : ResourceDimension
deriving DecidableEq

/-- Modelled from the spec: the `RESTYPE_*`/`TEXDISPLAY_*` constants live in
the shared HLSL header `data/hlsl/debugcbuffers.h`, which is not under
`src/`; they form a small display-type discriminator plus disjoint flag
bits. -/
def RESTYPE_TEX1D : Nat := 1

/-- Modelled from the spec: see `RESTYPE_TEX1D`. -/
def RESTYPE_TEX2D : Nat := 2

/-- Modelled from the spec: see `RESTYPE_TEX1D`. -/
def RESTYPE_TEX3D : Nat := 3

/-- Modelled from the spec: see `RESTYPE_TEX1D`. -/
def RESTYPE_TEX2D_MS : Nat := 9

/-- Modelled from the spec: see `RESTYPE_TEX1D`. -/
def TEXDISPLAY_UINT_TEX : Nat := 16

/-- Modelled from the spec: see `RESTYPE_TEX1D`. -/
def TEXDISPLAY_SINT_TEX : Nat := 32

/-- Modelled from the spec: see `RESTYPE_TEX1D`. -/
def TEXDISPLAY_GAMMA_CURVE : Nat := 64

/-- Modelled from the spec: see `RESTYPE_TEX1D`. -/
def TEXDISPLAY_NANS : Nat := 128

/-- Modelled from the spec: see `RESTYPE_TEX1D`. -/
def TEXDISPLAY_CLIPPING : Nat := 256

/-- Reinterpret a uint32 value as a signed `int` (two's complement). -/
def toInt32 (n : Nat) : Int :=
  if n < 2 ^ 31 then (n : Int) else (n : Int) - 2 ^ 32

/-- The discrete fields of `DebugPixelCBufferData` as computed by
`RenderTexture` (float-only presentation fields `Slice` and the vertex
transform are not modelled). -/
structure PixelDataM where
  Channels : F32 × F32 × F32 × F32
  RangeMinimum : F32
  InverseRangeSize : F32
  WireframeColourX : F32
  RawOutput : Nat
  FlipY : Nat
  SampleIdx : Int
  TextureResolutionPS : Nat × Nat × Nat
  ScalePS : F32
  MipLevel : Nat
  OutputDisplayFormat : Nat
deriving DecidableEq

/-- Swap the before/after states of a transition barrier (the
`std::swap(StateBefore, StateAfter)` loop at lines 1619-1620). -/
def swapTransition : DbgEvent → DbgEvent
  | .barrier r sub b a => .barrier r sub a b
  | e => e

/-- One transition barrier per subresource, from the recorded state to
`D3D12_RESOURCE_STATE_PIXEL_SHADER_RESOURCE` (lines 1568-1578). -/
def texBarriers (states : List ResState) : List DbgEvent :=
  (List.enum states).map (fun p => DbgEvent.barrier .tex p.1 p.2 .pixelShaderResource)

/-- Result of `RenderTexture`: the returned bool, the pixel constant buffer
contents (when written), the chosen pipeline (`true` = the alpha-blend
variant), and the recorded commands. -/
structure RenderTextureResult where
  success : Bool
  pixelData : Option PixelDataM
  blendPipe : Bool
  events : List DbgEvent
deriving DecidableEq

/-- `D3D12DebugManager::RenderTexture` (lines 1379-1631): computes the
pixel-shader configuration, fails fast returning false when the resource
format is unknown, and otherwise records the per-subresource transitions to
pixel-shader-readable state, the draw, the swapped inverse transitions, and
the close/execute/flush of the list. -/
def RenderTexture (cfg : TextureDisplay) (blendAlpha : Bool)
    (desc : ResourceDescM) (states : List ResState) : RenderTextureResult :=
  let range := texDisplayRange cfg.rangemin cfg.rangemax
  let channels0 : F32 × F32 × F32 × F32 :=
    (if cfg.Red then .num 1 else .num 0, if cfg.Green then .num 1 else .num 0,
     if cfg.Blue then .num 1 else .num 0, if cfg.Alpha then .num 1 else .num 0)
  let sampleIdx : Int :=
    if cfg.sampleIdx = 2 ^ 32 - 1 then -(desc.sampleCount : Int)
    else toInt32 (min cfg.sampleIdx ((desc.sampleCount + (2 ^ 32 - 1)) % 2 ^ 32))
  if desc.format.unknown = true then
    { success := false, pixelData := none, blendPipe := false, events := [] }
  else
    let channels :=
      if desc.format.a8 = true ∧ F32.le cfg.scale (.num 0) = true then
        (F32.num 0, F32.num 0, F32.num 0, F32.num 1)
      else channels0
    let texResZ0 := max 1 ((desc.depthOrArraySize >>> cfg.mip) % 2 ^ 32)
    let texRes : Nat × Nat × Nat :=
      (max 1 ((desc.width >>> cfg.mip) % 2 ^ 32),
       max 1 ((desc.height >>> cfg.mip) % 2 ^ 32),
       if 1 < desc.depthOrArraySize ∧ desc.dimension ≠ .tex3D then desc.depthOrArraySize
       else texResZ0)
    let odf0 :=
      if desc.dimension = .tex3D then RESTYPE_TEX3D
      else if desc.dimension = .tex1D then RESTYPE_TEX1D
      else if desc.dimension = .tex2D ∧ 1 < desc.sampleCount then RESTYPE_TEX2D_MS
      else RESTYPE_TEX2D
    let odf1 := if cfg.overlay = .nanOverlay then Nat.lor odf0 TEXDISPLAY_NANS else odf0
    let odf2 := if cfg.overlay = .clipping then Nat.lor odf1 TEXDISPLAY_CLIPPING else odf1
    let odf3 := if desc.format.uintTex = true then Nat.lor odf2 TEXDISPLAY_UINT_TEX else odf2
    let odf4 := if desc.format.sintTex = true then Nat.lor odf3 TEXDISPLAY_SINT_TEX else odf3
    let odf5 :=
      if desc.format.srgb = false ∧ cfg.linearDisplayAsGamma = true then
        Nat.lor odf4 TEXDISPLAY_GAMMA_CURVE
      else odf4
    let pd : PixelDataM :=
      { Channels := channels
        RangeMinimum := range.1
        InverseRangeSize := range.2
        WireframeColourX := cfg.HDRMul
        RawOutput := if cfg.rawoutput then 1 else 0
        FlipY := if cfg.FlipY then 1 else 0
        SampleIdx := sampleIdx
        TextureResolutionPS := texRes
        ScalePS := cfg.scale
        MipLevel := cfg.mip
        OutputDisplayFormat := odf5 }
    { success := true
      pixelData := some pd
      blendPipe := !(cfg.rawoutput || !blendAlpha || cfg.CustomShader != 0)
      events := texBarriers states ++ [DbgEvent.draw 4 1] ++
        (texBarriers states).map swapTransition ++
        [DbgEvent.closeList, DbgEvent.executeLists, DbgEvent.flushLists] }

/-- Modelled from the spec: the wrapped device's subresource-state tracking
(`GetSubresourceStates` and its barrier bookkeeping live outside this
file's source): a transition barrier on the displayed texture sets the
recorded state of its subresource to the barrier's after-state. -/
def applyEvent (sts : List ResState) (e : DbgEvent) : List ResState :=
  match e with
  | .barrier .tex sub _ after => sts.set sub after
  | _ => sts

/-- Recorded per-subresource states after executing a command sequence. -/
def trackStates (sts : List ResState) (evs : List DbgEvent) : List ResState :=
  evs.foldl applyEvent sts

theorem trackStates_append (sts : List ResState) (evs1 evs2 : List DbgEvent) :
    trackStates sts (evs1 ++ evs2) = trackStates (trackStates sts evs1) evs2 :=
  List.foldl_append _ _ _ _

theorem applyEvent_length (sts : List ResState) (e : DbgEvent) :
    (applyEvent sts e).length = sts.length := by
  unfold applyEvent
  split <;> simp

theorem trackStates_length (evs : List DbgEvent) : ∀ sts : List ResState,
    (trackStates sts evs).length = sts.length := by
  induction evs with
  | nil => intro sts; rfl
  | cons e evs ih =>
    intro sts
    rw [show trackStates sts (e :: evs) = trackStates (applyEvent sts e) evs from rfl,
      ih, applyEvent_length]

theorem set_append_cons {α : Type} (pre : List α) (c : α) (t : List α) (a : α) :
    (pre ++ c :: t).set pre.length a = pre ++ a :: t := by
  induction pre with
  | nil => rfl
  | cons p ps ih => simp [List.set, ih]

theorem trackStates_restore (orig : List ResState) : ∀ pre cur : List ResState,
    cur.length = orig.length →
    trackStates (pre ++ cur)
      ((List.enumFrom pre.length orig).map
        (fun p => DbgEvent.barrier .tex p.1 .pixelShaderResource p.2)) = pre ++ orig := by
  induction orig with
  | nil =>
    intro pre cur hlen
    rw [List.length_eq_zero.1 hlen]
    rfl
  | cons a rest ih =>
    intro pre cur hlen
    cases cur with
    | nil => simp at hlen
    | cons c ct =>
      have h1 : applyEvent (pre ++ c :: ct)
          (DbgEvent.barrier .tex pre.length .pixelShaderResource a) = pre ++ a :: ct := by
        simp [applyEvent, set_append_cons]
      have h2 : trackStates (pre ++ c :: ct)
          ((List.enumFrom pre.length (a :: rest)).map
            (fun p => DbgEvent.barrier .tex p.1 .pixelShaderResource p.2)) =
          trackStates (pre ++ a :: ct)
            ((List.enumFrom (pre.length + 1) rest).map
              (fun p => DbgEvent.barrier .tex p.1 .pixelShaderResource p.2)) := by
        simp only [List.enumFrom, List.map_cons]
        rw [show ∀ (X : List ResState) e evs,
            trackStates X (e :: evs) = trackStates (applyEvent X e) evs
          from fun _ _ _ => rfl, h1]
      rw [h2]
      have h3 : pre ++ a :: ct = (pre ++ [a]) ++ ct := by simp
      have h4 : pre.length + 1 = (pre ++ [a]).length := by simp
      rw [h3, h4, ih (pre ++ [a]) ct (by simpa using hlen)]
      simp

/-- C1: for every `RenderTexture` call that returns true — under every
overlay, channel, range and format configuration — the commands recorded
are one transition barrier per subresource from its recorded state to the
pixel-shader-readable state, then the draw, then the exact inverse
transitions; replaying them through the device's state tracking leaves the
recorded per-subresource states equal to the states on entry. -/
theorem RenderTexture_restores_subresource_states (cfg : TextureDisplay)
    (blendAlpha : Bool) (desc : ResourceDescM) (states : List ResState)
    (h : (RenderTexture cfg blendAlpha desc states).success = true) :
    (RenderTexture cfg blendAlpha desc states).events =
      texBarriers states ++ [DbgEvent.draw 4 1] ++
        (texBarriers states).map swapTransition ++
        [DbgEvent.closeList, DbgEvent.executeLists, DbgEvent.flushLists]
    ∧ trackStates states (RenderTexture cfg blendAlpha desc states).events = states := by
  by_cases hf : desc.format.unknown = true
  · exfalso
    unfold RenderTexture at h
    simp [hf] at h
  · have hev : (RenderTexture cfg blendAlpha desc states).events =
        texBarriers states ++ [DbgEvent.draw 4 1] ++
          (texBarriers states).map swapTransition ++
          [DbgEvent.closeList, DbgEvent.executeLists, DbgEvent.flushLists] := by
      unfold RenderTexture
      simp [hf]
    refine ⟨hev, ?_⟩
    rw [hev, trackStates_append, trackStates_append, trackStates_append]
    have htail : ∀ X : List ResState,
        trackStates X [DbgEvent.closeList, DbgEvent.executeLists, DbgEvent.flushLists] = X :=
      fun _ => rfl
    have hdraw : ∀ X : List ResState, trackStates X [DbgEvent.draw 4 1] = X :=
      fun _ => rfl
    rw [htail, hdraw]
    have hmap : (texBarriers states).map swapTransition =
        (List.enumFrom 0 states).map
          (fun p => DbgEvent.barrier .tex p.1 .pixelShaderResource p.2) := by
      simp only [texBarriers, List.map_map]
      rfl
    rw [hmap]
    simpa using trackStates_restore states [] (trackStates states (texBarriers states))
      (trackStates_length _ _)

/-- Witness for C1: a known 16x16 two-subresource texture with the NaN
overlay; the call succeeds and the recorded states are restored. -/
theorem RenderTexture_restores_subresource_states_witness :
    ((RenderTexture
        ⟨7, true, true, false, true, .num 0, .num 1, .num 1, .num 1, false, false,
          .num 0, .num 0, 0, 0, 0, .nanOverlay, true, 0⟩ true
        ⟨⟨false, false, false, false, true⟩, 16, 16, 2, 1, .tex2D⟩
        [.renderTarget, .other 3]).success = true)
    ∧ trackStates [.renderTarget, .other 3]
        (RenderTexture
          ⟨7, true, true, false, true, .num 0, .num 1, .num 1, .num 1, false, false,
            .num 0, .num 0, 0, 0, 0, .nanOverlay, true, 0⟩ true
          ⟨⟨false, false, false, false, true⟩, 16, 16, 2, 1, .tex2D⟩
          [.renderTarget, .other 3]).events = [.renderTarget, .other 3] :=
  ⟨by decide,
   (RenderTexture_restores_subresource_states
      ⟨7, true, true, false, true, .num 0, .num 1, .num 1, .num 1, false, false,
        .num 0, .num 0, 0, 0, 0, .nanOverlay, true, 0⟩ true
      ⟨⟨false, false, false, false, true⟩, 16, 16, 2, 1, .tex2D⟩
      [.renderTarget, .other 3] (by decide)).2⟩

end D3D12Debug
